import Mathlib

/-!
# Avia ML engine — shallow embedding

A shallow embedding of `src/ml_engine.py` (the three-bucket risk scoring
engine) and proofs about it.  Python floats are modelled by exact rationals
(`ℚ`); Python `round` (banker's rounding) is modelled by `roundHalfEven`;
fallible Python operations (`TypeError` on arithmetic with non-numeric
values) are modelled with `Except`.
-/

namespace Avia

/-- A scalar value of a claim record: string, number, or null (`None`).
Mirrors the ClaimRecord value domain (string keys to scalar/null values). -/
inductive Value where
  | str (s : String)
  | num (q : ℚ)
  | null
  deriving DecidableEq, Repr

/-- A claim record: a finite mapping from field names to values,
modelled as an association list (first binding wins, as in a dict). -/
abbrev ClaimRecord := List (String × Value)

/-- Association-list lookup (dict access), with decidable string equality. -/
def assocFind {α : Type} (k : String) : List (String × α) → Option α
  | [] => none
  | (k', v) :: rest => if k' = k then some v else assocFind k rest

/-- `claim_data.get(key, default)`. -/
def claimGetD (c : ClaimRecord) (k : String) (d : Value) : Value :=
  (assocFind k c).getD d

/-- String-list membership (Python `in` on a set/list of strings). -/
def memStr (s : String) : List String → Bool
  | [] => false
  | t :: rest => t = s || memStr s rest

/-- Index of a string in a list (the integer code `le.transform([v])[0]`
assigns: the position of the class in `classes_`). -/
def idxOfStr (s : String) : List String → ℕ
  | [] => 0
  | t :: rest => if t = s then 0 else idxOfStr s rest + 1

/-- Python's `str()` on a claim value.  `None` renders as `"None"`;
numbers render via `ℚ`'s `toString` (the scoring logic only ever inspects
renderings for the substring `"total"` and membership in
`{"no", "?", ""}`, which no numeric rendering satisfies). -/
def pyStr (v : Value) : String :=
  match v with
  | .str s => s
  | .num q => toString q
  | .null => "None"

/-- The Python exceptions the embedded code can raise. -/
inductive PyErr where
  | typeError
  deriving DecidableEq, Repr

/-- `v / d` for a claim value `v` and number `d`: raises `TypeError`
unless `v` is numeric (as Python does for `str` or `None` operands). -/
def valDivNum (v : Value) (d : ℚ) : Except PyErr ℚ :=
  match v with
  | .num q => .ok (q / d)
  | _ => .error .typeError

/-- `a - v`: raises `TypeError` unless `v` is numeric. -/
def numSubVal (a : ℚ) (v : Value) : Except PyErr ℚ :=
  match v with
  | .num q => .ok (a - q)
  | _ => .error .typeError

/-- `v > b`: raises `TypeError` unless `v` is numeric. -/
def valGtNum (v : Value) (b : ℚ) : Except PyErr Bool :=
  match v with
  | .num q => .ok (decide (b < q))
  | _ => .error .typeError

/-- `v < b`: raises `TypeError` unless `v` is numeric. -/
def valLtNum (v : Value) (b : ℚ) : Except PyErr Bool :=
  match v with
  | .num q => .ok (decide (q < b))
  | _ => .error .typeError

/-! ## Rounding

Python 3's `round` uses round-half-to-even.  `round(x, n)` is modelled
exactly on rationals. -/

/-- Round-half-to-even of a rational to an integer (Python `round(x)`). -/
def roundHalfEven (q : ℚ) : ℤ :=
  if q - ⌊q⌋ < 1/2 then ⌊q⌋
  else if 1/2 < q - ⌊q⌋ then ⌊q⌋ + 1
  else if ⌊q⌋ % 2 = 0 then ⌊q⌋ else ⌊q⌋ + 1

/-- Python `round(x, 1)`. -/
def round1 (q : ℚ) : ℚ := (roundHalfEven (10 * q) : ℚ) / 10

/-- Python `round(x, 4)`. -/
def round4 (q : ℚ) : ℚ := (roundHalfEven (10000 * q) : ℚ) / 10000

/-! ## Feature name translations (`FEATURE_TRANSLATIONS`, `_translate`) -/

/-- `FEATURE_TRANSLATIONS`: static internal-name → human-readable-label map. -/
def featureTranslations : List (String × String) :=
  [("months_as_customer", "customer tenure"),
   ("age", "policyholder age"),
   ("policy_deductable", "deductible amount"),
   ("policy_annual_premium", "annual premium"),
   ("umbrella_limit", "umbrella coverage limit"),
   ("insured_sex", "gender"),
   ("insured_education_level", "education level"),
   ("insured_occupation", "occupation"),
   ("insured_relationship", "relationship status"),
   ("capital-gains", "reported capital gains"),
   ("capital-loss", "reported capital losses"),
   ("incident_type", "type of incident"),
   ("collision_type", "collision type"),
   ("incident_severity", "damage severity"),
   ("authorities_contacted", "authorities contacted"),
   ("number_of_vehicles_involved", "number of vehicles"),
   ("bodily_injuries", "bodily injuries"),
   ("witnesses", "witness count"),
   ("total_claim_amount", "total claim amount"),
   ("injury_claim", "injury claim portion"),
   ("property_claim", "property claim portion"),
   ("vehicle_claim", "vehicle claim portion"),
   ("incident_hour_of_the_day", "time of incident"),
   ("auto_make", "vehicle make"),
   ("auto_model", "vehicle model"),
   ("auto_year", "vehicle age"),
   ("policy_state", "policy state"),
   ("insured_hobbies", "policyholder hobbies"),
   ("incident_state", "incident location"),
   ("incident_city", "incident city"),
   ("property_damage", "property damage reported"),
   ("police_report_available", "police report availability")]

/-- `_translate`: dictionary translation, falling back to replacing
underscores with spaces (`name.replace("_", " ")`, a per-character map
since the pattern is a single character). -/
def translate (name : String) : String :=
  (assocFind name featureTranslations).getD
    ⟨name.data.map (fun c => if c = '_' then ' ' else c)⟩

/-! ## String helpers (Python `lower()` and `in` on strings) -/

/-- Python's `s.lower()` (per-character lowercasing; the claim fields the
engine lowercases are ASCII). -/
def strLower (s : String) : String := ⟨s.data.map Char.toLower⟩

/-- Does the character list start with the given pattern? -/
def startsWithL : List Char → List Char → Bool
  | _, [] => true
  | [], _ :: _ => false
  | c :: cs, d :: ds => c = d && startsWithL cs ds

/-- Does the character list contain the pattern as a contiguous sublist? -/
def containsL : List Char → List Char → Bool
  | [], pat => pat.isEmpty
  | c :: cs, pat => startsWithL (c :: cs) pat || containsL cs pat

/-- Python's `pat in s` for strings. -/
def strContains (s pat : String) : Bool := containsL s.data pat.data

/-! ## Bucket feature sets -/

/-- `CLAIM_FEATURES`. -/
def claimFeatures : List String :=
  ["total_claim_amount", "injury_claim", "property_claim", "vehicle_claim",
   "incident_type", "collision_type", "incident_severity",
   "incident_hour_of_the_day", "number_of_vehicles_involved",
   "bodily_injuries", "witnesses", "property_damage",
   "police_report_available", "authorities_contacted"]

/-- `CUSTOMER_FEATURES`. -/
def customerFeatures : List String :=
  ["months_as_customer", "age", "insured_sex", "insured_education_level",
   "insured_occupation", "insured_hobbies", "insured_relationship",
   "capital-gains", "capital-loss", "policy_annual_premium",
   "policy_deductable", "umbrella_limit"]

/-- `PATTERN_FEATURES` (declared in the source; the scoring loop's `else`
branch catches every feature not in the claim/customer sets, so this set
is never consulted there). -/
def patternFeatures : List String :=
  ["policy_state", "incident_state", "incident_city",
   "auto_make", "auto_model", "auto_year", "policy_csl", "insured_zip"]

/-- The loop's first branch: `fname in CLAIM_FEATURES`. -/
def isClaimFeature (f : String) : Bool := memStr f claimFeatures

/-- The loop's `elif` branch: not a claim feature and
`fname in CUSTOMER_FEATURES`. -/
def isCustomerFeature (f : String) : Bool :=
  !memStr f claimFeatures && memStr f customerFeatures

/-- The loop's `else` branch: everything else. -/
def isPatternFeature (f : String) : Bool :=
  !memStr f claimFeatures && !memStr f customerFeatures

/-! ## `_compute_bucket_scores`

The Python loop keeps seven independent accumulators over the zipped
`(feature_name, shap_value)` sequence: a positive mass (`+= max(0, sv)`)
and an absolute mass (`+= abs(sv)`) for each of the three buckets, and the
list of `(translated name, sv)` pairs with `sv > 0.02`.  Each accumulator
is rendered as its own structural recursion / filter over the same
sequence. -/

/-- Positive attribution mass of the features selected by `mem`:
the `bucket_score += max(0, sv)` accumulator. -/
def posMassBy (mem : String → Bool) : List (String × ℚ) → ℚ
  | [] => 0
  | p :: rest => (if mem p.1 then max 0 p.2 else 0) + posMassBy mem rest

/-- Absolute attribution mass of the features selected by `mem`:
the `bucket_total += abs_sv` accumulator. -/
def absMassBy (mem : String → Bool) : List (String × ℚ) → ℚ
  | [] => 0
  | p :: rest => (if mem p.1 then |p.2| else 0) + absMassBy mem rest

/-- The `feature_contributions` list: `(translate(fname), sv)` for every
feature with `sv > 0.02`, in feature order. -/
def contribsOf (pairs : List (String × ℚ)) : List (String × ℚ) :=
  (pairs.filter (fun p => decide ((0.02 : ℚ) < p.2))).map
    (fun p => (translate p.1, p.2))

/-- `_compute_bucket_scores(shap_values, feature_names)`:
three normalized bucket scores and the top-feature labels.
`feature_contributions.sort(key=..., reverse=True)` is a stable descending
sort; a stable sort with respect to a total preorder is uniquely
determined by its input, so it is modelled by the (stable) insertion sort
with `r a b := b.2 ≤ a.2`. -/
def computeBucketScores (shapValues : List ℚ) (featureNames : List String) :
    ℚ × ℚ × ℚ × List String :=
  let pairs := featureNames.zip shapValues
  let claimScore := posMassBy isClaimFeature pairs
  let claimTotal := absMassBy isClaimFeature pairs
  let customerScore := posMassBy isCustomerFeature pairs
  let customerTotal := absMassBy isCustomerFeature pairs
  let patternScore := posMassBy isPatternFeature pairs
  let patternTotal := absMassBy isPatternFeature pairs
  -- (the source also computes `max_contrib = max(claim_total,
  -- customer_total, pattern_total, 0.01)`, which is never used)
  let claimNorm := min 100 (max 0 ((claimScore / max claimTotal 0.01) * 100))
  let customerNorm :=
    min 100 (max 0 ((customerScore / max customerTotal 0.01) * 100))
  let patternNorm :=
    min 100 (max 0 ((patternScore / max patternTotal 0.01) * 100))
  let sortedContribs :=
    (contribsOf pairs).insertionSort (fun a b => b.2 ≤ a.2)
  let topFeatures := (sortedContribs.take 6).map (fun p => p.1)
  (claimNorm, customerNorm, patternNorm, topFeatures)

/-! ## `_compute_bucket_scores_fallback` -/

/-- `_compute_bucket_scores_fallback(fraud_prob, anomaly_score, claim_data)`:
heuristic bucket scoring when SHAP is unavailable.  The comparisons
`amount > 50000` and `tenure < 12` raise `TypeError` when the claim value
is a string or null, exactly as in Python. -/
def fallbackScores (fraudProb anomalyScore : ℚ) (claimData : ClaimRecord) :
    Except PyErr (ℚ × ℚ × ℚ × List String) := do
  let base := fraudProb * 100
  -- Claim risk heuristics
  let amount := claimGetD claimData "total_claim_amount" (.num 0)
  let severity := strLower (pyStr (claimGetD claimData "incident_severity" (.str "")))
  let claimRisk0 := base * 0.8
  let amountGt ← valGtNum amount 50000
  let (claimRisk1, top1) :=
    if amountGt then (min 100 (claimRisk0 + 20), ["total claim amount"])
    else (claimRisk0, [])
  let (claimRisk, top2) :=
    if strContains severity "total" then
      (min 100 (claimRisk1 + 15), top1 ++ ["damage severity"])
    else (claimRisk1, top1)
  -- Customer risk heuristics
  let tenure := claimGetD claimData "months_as_customer" (.num 0)
  let customerRisk0 := base * 0.5
  let tenureLt ← valLtNum tenure 12
  let (customerRisk, top3) :=
    if tenureLt then (min 100 (customerRisk0 + 25), top2 ++ ["customer tenure"])
    else (customerRisk0, top2)
  -- Pattern risk heuristics
  let police := strLower (pyStr (claimGetD claimData "police_report_available" (.str "")))
  let patternRisk0 := base * 0.4 + anomalyScore * (-30)
  let (patternRisk, top4) :=
    if police = "no" || police = "?" || police = "" then
      (min 100 (patternRisk0 + 15), top3 ++ ["police report availability"])
    else (patternRisk0, top3)
  return (min 100 (max 0 claimRisk),
          min 100 (max 0 customerRisk),
          min 100 (max 0 patternRisk),
          top4.take 6)

/-! ## `analyze_claim` and `_mock_analysis` -/

/-- The dict returned by `analyze_claim` / `_mock_analysis`. -/
structure RiskResult where
  claim_risk : ℚ
  customer_risk : ℚ
  pattern_risk : ℚ
  overall_risk : ℚ
  risk_level : String
  next_action : String
  top_features : List String
  fraud_probability : ℚ
  anomaly_score : ℚ
  deriving DecidableEq, Repr

/-- Lines 276–307 of `analyze_claim`: combine the bucket scores into the
overall score, tier, next action and result dict. -/
def finishResult (fraudProb anomalyRaw claimRisk customerRisk patternRisk : ℚ)
    (topFeatures : List String) : RiskResult :=
  let overall := 0.45 * claimRisk + 0.30 * customerRisk + 0.25 * patternRisk
  let riskLevel :=
    if 65 ≤ overall then "High"
    else if 35 ≤ overall then "Medium"
    else "Low"
  let nextAction :=
    if riskLevel = "High" then "Review Immediately"
    else if riskLevel = "Medium" then "Queue for Review"
    else "Safe to Proceed"
  { claim_risk := round1 claimRisk
    customer_risk := round1 customerRisk
    pattern_risk := round1 patternRisk
    overall_risk := round1 overall
    risk_level := riskLevel
    next_action := nextAction
    top_features := topFeatures
    fraud_probability := round4 fraudProb
    anomaly_score := round4 anomalyRaw }

/-- `_mock_analysis(claim_data)`: the degraded heuristic used when the
model artifacts are unavailable.  `amount / 1000` and `100 - tenure`
raise `TypeError` on non-numeric values, exactly as in Python. -/
def mockAnalysis (claimData : ClaimRecord) : Except PyErr RiskResult := do
  let amount := claimGetD claimData "total_claim_amount" (.num 0)
  let tenure := claimGetD claimData "months_as_customer" (.num 50)
  let severity := strLower (pyStr (claimGetD claimData "incident_severity" (.str "")))
  -- Simple heuristic
  let amountDiv ← valDivNum amount 1000
  let claimRisk := min 100 (max 10 amountDiv)
  let tenureSub ← numSubVal 100 tenure
  let customerRisk := min 100 (max 10 tenureSub)
  let patternRisk : ℚ := if strContains severity "total" then 40 else 20
  let overall := 0.45 * claimRisk + 0.30 * customerRisk + 0.25 * patternRisk
  let (riskLevel, nextAction) :=
    if 65 ≤ overall then ("High", "Review Immediately")
    else if 35 ≤ overall then ("Medium", "Queue for Review")
    else ("Low", "Safe to Proceed")
  return { claim_risk := round1 claimRisk
           customer_risk := round1 customerRisk
           pattern_risk := round1 patternRisk
           overall_risk := round1 overall
           risk_level := riskLevel
           next_action := nextAction
           top_features := ["claim amount", "customer tenure", "damage severity"]
           fraud_probability := overall / 100
           anomaly_score := 0 }

/-- The model-available part of `analyze_claim` (lines 250–307).
The classifier output `fraud_prob`, the anomaly score `anomaly_raw`, and
the SHAP attribution vector (`some` when the SHAP explainer is present)
are the black-box model outputs, passed as parameters;
`featureNames` is `_metadata["feature_names"]`. -/
def analyzeWithModels (fraudProb anomalyRaw : ℚ) (shap : Option (List ℚ))
    (featureNames : List String) (claimData : ClaimRecord) :
    Except PyErr RiskResult :=
  match shap with
  | some shapVals =>
    let (claimRisk, customerRisk, patternRisk, topFeatures) :=
      computeBucketScores shapVals featureNames
    .ok (finishResult fraudProb anomalyRaw claimRisk customerRisk patternRisk
      topFeatures)
  | none => do
    let (claimRisk, customerRisk, patternRisk, topFeatures) ←
      fallbackScores fraudProb anomalyRaw claimData
    return finishResult fraudProb anomalyRaw claimRisk customerRisk patternRisk
      topFeatures

/-- `analyze_claim(claim_data)`: `loaded` is the result of `_load_models()`;
when it is false the degraded `_mock_analysis` path runs and the model
outputs are never consulted. -/
def analyzeClaim (loaded : Bool) (fraudProb anomalyRaw : ℚ)
    (shap : Option (List ℚ)) (featureNames : List String)
    (claimData : ClaimRecord) : Except PyErr RiskResult :=
  if loaded then analyzeWithModels fraudProb anomalyRaw shap featureNames claimData
  else mockAnalysis claimData

/-! ## `_load_models` lifecycle

The only persistent state is the `_loaded` flag (the artifact globals are
assigned together with it).  `_load_models` returns `True` immediately if
`_loaded` is set; otherwise it attempts the load (whether the attempt
succeeds is the environment parameter `avail`), sets `_loaded` on success,
and returns `False` on failure — without recording the failure. -/

/-- One call to `_load_models` from state `loaded`, where `avail` says
whether the artifact files load successfully on this attempt.
Returns `(result, new state, whether a load attempt was performed)`. -/
def loadModels (loaded : Bool) (avail : Bool) : Bool × Bool × Bool :=
  if loaded then (true, loaded, false)
  else (avail, avail, true)

/-- The `_loaded` state after `n` consecutive failed-load scoring calls,
starting from the initial (unloaded) state. -/
def stateAfterFailures : Nat → Bool
  | 0 => false
  | n + 1 => (loadModels (stateAfterFailures n) false).2.1

/-! ## `_preprocess` — per-feature encoding

`_preprocess` builds one raw value per trained feature name; the encoding
of a single feature is the part the claims are about (the subsequent
scaler transform is a black-box artifact).  `v = none` means the field is
absent from the claim dict (so `claim_data.get(fname, 0)` yields the
number `0`). -/

/-- A (restricted) model of Python `float(string)`: optional sign,
digits, optional fractional part.  Returns `none` (Python `ValueError`)
on anything else; exotic literals (exponents, `inf`, `nan`, surrounding
whitespace) are outside the modelled input grammar. -/
def natOfDigits : List Char → Option ℕ
  | [] => none
  | cs =>
    cs.foldl (fun acc c =>
      acc.bind (fun n => if c.isDigit then some (10 * n + (c.toNat - 48)) else none))
      (some 0)

/-- Parse a decimal string to an exact rational, `none` on failure. -/
def parseDec (s : String) : Option ℚ :=
  let cs := s.data
  let (sign, rest) : ℚ × List Char :=
    match cs with
    | '-' :: t => (-1, t)
    | '+' :: t => (1, t)
    | _ => (1, cs)
  match rest.span (fun c => c ≠ '.') with
  | (intPart, []) => (natOfDigits intPart).map (fun n => sign * n)
  | (intPart, _dot :: fracPart) =>
    if intPart.isEmpty && fracPart.isEmpty then none
    else do
      let ip ← if intPart.isEmpty then some 0 else natOfDigits intPart
      let fp ← if fracPart.isEmpty then some 0 else natOfDigits fracPart
      some (sign * ((ip : ℚ) + (fp : ℚ) / 10 ^ fracPart.length))

/-- Python `float(val)` with the `try/except` of `_preprocess`:
numbers pass through, null yields `0.0` (the `if val is not None else 0.0`
branch), and strings parse or fall back to `0.0` on `ValueError`. -/
def pyFloatCoerce (v : Value) : ℚ :=
  match v with
  | .num q => q
  | .null => 0
  | .str s => (parseDec s).getD 0

/-- The raw (pre-scaler) value `_preprocess` computes for one feature.
`catCols` is `_metadata["cat_cols"]`; `encoders` maps encoder names to
their trained `classes_` lists (a trained category's code is its index in
`classes_`, which is what `le.transform([v])[0]` returns); `v` is the
claim's value for the feature, `none` when the field is absent. -/
def encodeRaw (catCols : List String) (encoders : List (String × List String))
    (fname : String) (v : Option Value) : ℚ :=
  let val := v.getD (.num 0)
  if memStr fname catCols && !encoders.isEmpty && (assocFind fname encoders).isSome then
    let le := (assocFind fname encoders).getD []
    let valStr := match val with | .null => "MISSING" | _ => pyStr val
    if memStr valStr le then (idxOfStr valStr le : ℚ) else 0
  else
    pyFloatCoerce val

/-- The vectorizer coercion rule as the specification words it:
the claim's value is coerced to a string, defaulting to `"MISSING"` when
the field is absent *or* null; a string seen during training maps to its
trained integer code; any other string maps to code 0.  (Spec-side
definition, for comparison with `encodeRaw`.) -/
def encodeSpecClaimed (catCols : List String)
    (encoders : List (String × List String)) (fname : String)
    (v : Option Value) : ℚ :=
  if memStr fname catCols && !encoders.isEmpty && (assocFind fname encoders).isSome then
    let le := (assocFind fname encoders).getD []
    let valStr := match v with
      | none => "MISSING"
      | some .null => "MISSING"
      | some w => pyStr w
    if memStr valStr le then (idxOfStr valStr le : ℚ) else 0
  else
    match v with
    | none => 0
    | some w => pyFloatCoerce w

/-- The vectorizer coercion rule as the code actually behaves (amended
specification): a *null* value defaults to `"MISSING"`, but an *absent*
field defaults to the number `0` — hence the string `"0"` — before the
known-category lookup; unknown strings map to code 0.  Numerically typed
features: null or coercion failure yields `0.0`, absence yields the
default `0`. -/
def encodeSpecAmended (catCols : List String)
    (encoders : List (String × List String)) (fname : String)
    (v : Option Value) : ℚ :=
  if memStr fname catCols && !encoders.isEmpty && (assocFind fname encoders).isSome then
    let le := (assocFind fname encoders).getD []
    let valStr := match v with
      | none => "0"
      | some .null => "MISSING"
      | some w => pyStr w
    if memStr valStr le then (idxOfStr valStr le : ℚ) else 0
  else
    match v with
    | none => 0
    | some w => pyFloatCoerce w

/-! ## General lemmas -/

theorem roundHalfEven_ge_floor (q : ℚ) : ⌊q⌋ ≤ roundHalfEven q := by
  unfold roundHalfEven
  split_ifs <;> omega

theorem roundHalfEven_le_ceil (q : ℚ) : roundHalfEven q ≤ ⌈q⌉ := by
  unfold roundHalfEven
  split_ifs with h1 h2 h3
  · exact Int.floor_le_ceil q
  · have hq : (⌊q⌋ : ℚ) < q := by linarith
    have := Int.lt_ceil.mpr hq
    omega
  · exact Int.floor_le_ceil q
  · have hq : (⌊q⌋ : ℚ) < q := by
      have h12 : (1 : ℚ)/2 ≤ q - ⌊q⌋ := not_lt.mp h1
      linarith
    have := Int.lt_ceil.mpr hq
    omega

theorem round1_nonneg {q : ℚ} (h : 0 ≤ q) : 0 ≤ round1 q := by
  have h0 : (0 : ℤ) ≤ ⌊10 * q⌋ := Int.floor_nonneg.mpr (by linarith)
  have h1 : (0 : ℤ) ≤ roundHalfEven (10 * q) :=
    le_trans h0 (roundHalfEven_ge_floor _)
  unfold round1
  have : (0 : ℚ) ≤ (roundHalfEven (10 * q) : ℚ) := by exact_mod_cast h1
  linarith

theorem round1_le_hundred {q : ℚ} (h : q ≤ 100) : round1 q ≤ 100 := by
  have hc : ⌈10 * q⌉ ≤ (1000 : ℤ) := Int.ceil_le.mpr (by push_cast; linarith)
  have h1 : roundHalfEven (10 * q) ≤ (1000 : ℤ) :=
    le_trans (roundHalfEven_le_ceil _) hc
  unfold round1
  have : (roundHalfEven (10 * q) : ℚ) ≤ 1000 := by exact_mod_cast h1
  linarith

theorem clamp01_nonneg (x : ℚ) : 0 ≤ min 100 (max 0 x) :=
  le_min (by norm_num) (le_max_left 0 x)

theorem clamp01_le (x : ℚ) : min 100 (max 0 x) ≤ 100 := min_le_left _ _

theorem clamp10_nonneg (x : ℚ) : 0 ≤ min 100 (max 10 x) :=
  le_min (by norm_num) (le_trans (by norm_num) (le_max_left 10 x))

theorem clamp10_le (x : ℚ) : min 100 (max 10 x) ≤ 100 := min_le_left _ _

theorem clamp_min100 (y : ℚ) :
    min 100 (max 0 (min 100 y)) = min 100 (max 0 y) := by
  rcases le_total y 100 with h | h
  · rw [min_eq_right h]
  · rw [min_eq_left h, max_eq_right (by linarith : (0:ℚ) ≤ y),
      max_eq_right (by norm_num : (0:ℚ) ≤ 100),
      min_eq_left (le_refl (100:ℚ)), min_eq_left h]

theorem clamp_add {x b : ℚ} (hb : 0 ≤ b) :
    min 100 (max 0 (min 100 x + b)) = min 100 (max 0 (x + b)) := by
  rcases le_total x 100 with h | h
  · rw [min_eq_right h]
  · rw [min_eq_left h]
    have hx : (0:ℚ) ≤ 100 + b := by linarith
    have hx' : (0:ℚ) ≤ x + b := by linarith
    rw [max_eq_right hx, max_eq_right hx',
      min_eq_left (by linarith : (100:ℚ) ≤ 100 + b),
      min_eq_left (by linarith : (100:ℚ) ≤ x + b)]

theorem posMassBy_nonneg (mem : String → Bool) (pairs : List (String × ℚ)) :
    0 ≤ posMassBy mem pairs := by
  induction pairs with
  | nil => simp [posMassBy]
  | cons p rest ih =>
    have hterm : (0:ℚ) ≤ if mem p.1 then max 0 p.2 else 0 := by
      split
      · exact le_max_left 0 p.2
      · exact le_refl 0
    simp only [posMassBy]
    linarith

theorem posMassBy_le_absMassBy (mem : String → Bool)
    (pairs : List (String × ℚ)) :
    posMassBy mem pairs ≤ absMassBy mem pairs := by
  induction pairs with
  | nil => simp [posMassBy, absMassBy]
  | cons p rest ih =>
    have hterm : (if mem p.1 then max 0 p.2 else 0) ≤
        (if mem p.1 then |p.2| else 0) := by
      split
      · exact max_le (abs_nonneg p.2) (le_abs_self p.2)
      · exact le_refl 0
    simp only [posMassBy, absMassBy]
    linarith

/-- The normalization clamps in `_compute_bucket_scores` are redundant:
when `0 ≤ pos ≤ tot` the clamped expression equals the plain ratio. -/
theorem norm_clamp_redundant {pos tot : ℚ} (h0 : 0 ≤ pos) (h : pos ≤ tot) :
    min 100 (max 0 ((pos / max tot 0.01) * 100)) = 100 * pos / max tot 0.01 := by
  have hden : (0:ℚ) < max tot 0.01 :=
    lt_of_lt_of_le (by norm_num) (le_max_right tot 0.01)
  have hratio : pos / max tot 0.01 ≤ 1 := by
    rw [div_le_one hden]
    exact le_trans h (le_max_left tot 0.01)
  have hpos : 0 ≤ pos / max tot 0.01 := div_nonneg h0 (le_of_lt hden)
  have e1 : max 0 ((pos / max tot 0.01) * 100) = (pos / max tot 0.01) * 100 :=
    max_eq_right (by nlinarith)
  have e2 : min 100 ((pos / max tot 0.01) * 100) = (pos / max tot 0.01) * 100 :=
    min_eq_right (by nlinarith)
  rw [e1, e2]
  ring

/-- The fields of `finishResult` in terms of its arguments: the returned
sub-scores are the one-decimal roundings of the raw bucket scores, the
overall score is the rounding of the weighted sum of the *raw* scores,
and the tier/next action come from the *unrounded* weighted sum. -/
theorem finishResult_spec (f a c u p : ℚ) (top : List String) :
    (finishResult f a c u p top).claim_risk = round1 c ∧
    (finishResult f a c u p top).customer_risk = round1 u ∧
    (finishResult f a c u p top).pattern_risk = round1 p ∧
    (finishResult f a c u p top).overall_risk =
      round1 (0.45 * c + 0.30 * u + 0.25 * p) ∧
    (finishResult f a c u p top).risk_level =
      (if 65 ≤ 0.45 * c + 0.30 * u + 0.25 * p then "High"
       else if 35 ≤ 0.45 * c + 0.30 * u + 0.25 * p then "Medium" else "Low") ∧
    (finishResult f a c u p top).next_action =
      (if (finishResult f a c u p top).risk_level = "High" then "Review Immediately"
       else if (finishResult f a c u p top).risk_level = "Medium" then "Queue for Review"
       else "Safe to Proceed") ∧
    (finishResult f a c u p top).top_features = top :=
  ⟨rfl, rfl, rfl, rfl, rfl, rfl, rfl⟩

/-- All three bucket scores of `_compute_bucket_scores` are clamped
into `[0, 100]`. -/
theorem computeBucketScores_bounds (sv : List ℚ) (names : List String) :
    (0 ≤ (computeBucketScores sv names).1 ∧
      (computeBucketScores sv names).1 ≤ 100) ∧
    (0 ≤ (computeBucketScores sv names).2.1 ∧
      (computeBucketScores sv names).2.1 ≤ 100) ∧
    (0 ≤ (computeBucketScores sv names).2.2.1 ∧
      (computeBucketScores sv names).2.2.1 ≤ 100) := by
  simp only [computeBucketScores]
  exact ⟨⟨clamp01_nonneg _, clamp01_le _⟩, ⟨clamp01_nonneg _, clamp01_le _⟩,
    ⟨clamp01_nonneg _, clamp01_le _⟩⟩

/-- When the heuristic fallback returns, all three bucket scores are
clamped into `[0, 100]`. -/
theorem fallbackScores_ok_bounds {f a : ℚ} {cd : ClaimRecord} {c u p : ℚ}
    {tf : List String}
    (h : fallbackScores f a cd = .ok (c, u, p, tf)) :
    (0 ≤ c ∧ c ≤ 100) ∧ (0 ≤ u ∧ u ≤ 100) ∧ (0 ≤ p ∧ p ≤ 100) := by
  simp only [fallbackScores] at h
  cases h1 : valGtNum (claimGetD cd "total_claim_amount" (.num 0)) 50000 with
  | error e => rw [h1] at h; simp [Bind.bind, Except.bind] at h
  | ok g =>
    cases h2 : valLtNum (claimGetD cd "months_as_customer" (.num 0)) 12 with
    | error e => rw [h1] at h; rw [h2] at h; simp [Bind.bind, Except.bind] at h
    | ok l =>
      rw [h1] at h; rw [h2] at h
      simp only [Bind.bind, Except.bind, Pure.pure, Except.pure,
        Except.ok.injEq, Prod.mk.injEq] at h
      obtain ⟨hc, hu, hp, -⟩ := h
      exact ⟨hc ▸ ⟨clamp01_nonneg _, clamp01_le _⟩,
        hu ▸ ⟨clamp01_nonneg _, clamp01_le _⟩,
        hp ▸ ⟨clamp01_nonneg _, clamp01_le _⟩⟩

/-- Every successful scoring call decomposes as: three raw bucket scores
in `[0, 100]`, whose one-decimal roundings are the returned sub-scores;
the returned overall is the rounding of the weighted sum of the raw
scores; the tier is obtained by thresholding the unrounded weighted sum
and the next action by matching the tier. -/
theorem analyzeClaim_ok_parts {loaded : Bool} {f a : ℚ}
    {shap : Option (List ℚ)} {names : List String} {cd : ClaimRecord}
    {r : RiskResult}
    (h : analyzeClaim loaded f a shap names cd = .ok r) :
    ∃ c u p, (0 ≤ c ∧ c ≤ 100) ∧ (0 ≤ u ∧ u ≤ 100) ∧ (0 ≤ p ∧ p ≤ 100) ∧
      r.claim_risk = round1 c ∧ r.customer_risk = round1 u ∧
      r.pattern_risk = round1 p ∧
      r.overall_risk = round1 (0.45 * c + 0.30 * u + 0.25 * p) ∧
      r.risk_level = (if 65 ≤ 0.45 * c + 0.30 * u + 0.25 * p then "High"
        else if 35 ≤ 0.45 * c + 0.30 * u + 0.25 * p then "Medium" else "Low") ∧
      r.next_action = (if r.risk_level = "High" then "Review Immediately"
        else if r.risk_level = "Medium" then "Queue for Review"
        else "Safe to Proceed") := by
  cases loaded with
  | false =>
    simp only [analyzeClaim, Bool.false_eq_true, if_false] at h
    simp only [mockAnalysis] at h
    cases h1 : valDivNum (claimGetD cd "total_claim_amount" (.num 0)) 1000 with
    | error e => rw [h1] at h; simp [Bind.bind, Except.bind] at h
    | ok adiv =>
      cases h2 : numSubVal 100 (claimGetD cd "months_as_customer" (.num 50)) with
      | error e => rw [h1] at h; rw [h2] at h; simp [Bind.bind, Except.bind] at h
      | ok tsub =>
        rw [h1] at h; rw [h2] at h
        simp only [Bind.bind, Except.bind, Pure.pure, Except.pure,
          Except.ok.injEq] at h
        subst h
        refine ⟨min 100 (max 10 adiv), min 100 (max 10 tsub),
          (if strContains (strLower (pyStr (claimGetD cd "incident_severity"
            (.str "")))) "total" then (40:ℚ) else 20), ?_⟩
        refine ⟨⟨clamp10_nonneg _, clamp10_le _⟩,
          ⟨clamp10_nonneg _, clamp10_le _⟩,
          ⟨by split <;> norm_num, by split <;> norm_num⟩,
          rfl, rfl, rfl, rfl, ?_, ?_⟩
        · split_ifs <;> rfl
        · split_ifs <;> simp_all
  | true =>
    simp only [analyzeClaim, if_true] at h
    cases shap with
    | some sv =>
      simp only [analyzeWithModels] at h
      rcases hc : computeBucketScores sv names with ⟨c, u, p, top⟩
      rw [hc] at h
      simp only [Except.ok.injEq] at h
      subst h
      have hb := computeBucketScores_bounds sv names
      rw [hc] at hb
      obtain ⟨hspec1, hspec2, hspec3, hspec4, hspec5, hspec6, -⟩ :=
        finishResult_spec f a c u p top
      exact ⟨c, u, p, hb.1, hb.2.1, hb.2.2, hspec1, hspec2, hspec3, hspec4,
        hspec5, hspec6⟩
    | none =>
      simp only [analyzeWithModels] at h
      cases hf : fallbackScores f a cd with
      | error e => rw [hf] at h; simp [Bind.bind, Except.bind] at h
      | ok t =>
        rcases t with ⟨c, u, p, tf⟩
        rw [hf] at h
        simp only [Bind.bind, Except.bind, Pure.pure, Except.pure,
          Except.ok.injEq] at h
        subst h
        have hb := fallbackScores_ok_bounds hf
        obtain ⟨hspec1, hspec2, hspec3, hspec4, hspec5, hspec6, -⟩ :=
          finishResult_spec f a c u p tf
        exact ⟨c, u, p, hb.1, hb.2.1, hb.2.2, hspec1, hspec2, hspec3, hspec4,
          hspec5, hspec6⟩

/-! ## Claim theorems -/

/-- C1 (counterexample): the claim "`overall` equals
`round(0.45×claim + 0.30×customer + 0.25×pattern, 1)` where claim,
customer, pattern are the sub-scores *returned in the same RiskResult*"
fails: for the claim record with amount 10140 and tenure 49.96 the
degraded scoring call returns sub-scores 10.1/50/20 and overall 24.6, yet
recombining the *returned* (rounded) sub-scores gives
`round1(0.45·10.1 + 0.30·50 + 0.25·20) = round1(24.545) = 24.5 ≠ 24.6`
(the code computes the overall from the unrounded sub-scores). -/
theorem c1_counterexample :
    analyzeClaim false 0 0 none []
      [("total_claim_amount", Value.num 10140),
       ("months_as_customer", Value.num (1249/25))] =
      .ok ⟨101/10, 50, 20, 123/5, "Low", "Safe to Proceed",
        ["claim amount", "customer tenure", "damage severity"], 983/4000, 0⟩ ∧
    round1 (0.45 * (101/10) + 0.30 * 50 + 0.25 * 20) = 49/2 ∧
    (123/5 : ℚ) ≠ 49/2 := by
  refine ⟨?_, ?_, by norm_num⟩
  · simp [analyzeClaim, mockAnalysis, claimGetD, assocFind, pyStr, strLower,
      strContains, containsL, startsWithL, valDivNum, numSubVal, Except.bind,
      Bind.bind, Pure.pure, Except.pure]
    norm_num [round1, roundHalfEven, Int.fract, min_def, max_def,
      Int.floor_eq_iff, RiskResult.mk.injEq]
  · norm_num [round1, roundHalfEven, Int.fract, Int.floor_eq_iff]

/-- C1 (amended): the returned overall score is
`round(0.45×claim + 0.30×customer + 0.25×pattern, 1)` computed over the
*unrounded* bucket scores; the sub-scores returned in the same RiskResult
are the one-decimal roundings of those unrounded scores (so recombining
the returned sub-scores can differ from the returned overall by up to one
rounding step). -/
theorem c1_amended (loaded : Bool) (f a : ℚ) (shap : Option (List ℚ))
    (names : List String) (cd : ClaimRecord) (r : RiskResult)
    (h : analyzeClaim loaded f a shap names cd = .ok r) :
    ∃ c u p : ℚ, r.claim_risk = round1 c ∧ r.customer_risk = round1 u ∧
      r.pattern_risk = round1 p ∧
      r.overall_risk = round1 (0.45 * c + 0.30 * u + 0.25 * p) := by
  obtain ⟨c, u, p, -, -, -, hc, hu, hp, ho, -, -⟩ := analyzeClaim_ok_parts h
  exact ⟨c, u, p, hc, hu, hp, ho⟩

/-- C1 (witness): `c1_amended` applied to a concrete degraded scoring
call on the empty claim record. -/
theorem c1_amended_witness :
    ∃ c u p : ℚ, (10 : ℚ) = round1 c ∧ (50 : ℚ) = round1 u ∧
      (20 : ℚ) = round1 p ∧
      (49/2 : ℚ) = round1 (0.45 * c + 0.30 * u + 0.25 * p) :=
  c1_amended false 0 0 none [] []
    ⟨10, 50, 20, 49/2, "Low", "Safe to Proceed",
      ["claim amount", "customer tenure", "damage severity"], 49/200, 0⟩
    (by
      simp [analyzeClaim, mockAnalysis, claimGetD, assocFind, pyStr, strLower,
        strContains, containsL, startsWithL, valDivNum, numSubVal, Except.bind,
        Bind.bind, Pure.pure, Except.pure]
      norm_num [round1, roundHalfEven, Int.fract, min_def, max_def,
        Int.floor_eq_iff, RiskResult.mk.injEq])

/-- C2 (counterexample): the claim "the returned risk tier is High iff
the overall score is ≥ 65 (so overall = 65.0 gives High)" fails for the
returned overall score: for amount 100000 and tenure 50.1 the degraded
call returns `overall_risk = 65.0` with tier `"Medium"`, because the tier
is computed from the unrounded overall 64.97 < 65 while the returned
overall is rounded up to 65.0. -/
theorem c2_counterexample :
    analyzeClaim false 0 0 none []
      [("total_claim_amount", Value.num 100000),
       ("months_as_customer", Value.num (501/10))] =
      .ok ⟨100, 499/10, 20, 65, "Medium", "Queue for Review",
        ["claim amount", "customer tenure", "damage severity"],
        6497/10000, 0⟩ ∧
    ("Medium" : String) ≠ "High" := by
  refine ⟨?_, by simp⟩
  simp [analyzeClaim, mockAnalysis, claimGetD, assocFind, pyStr, strLower,
    strContains, containsL, startsWithL, valDivNum, numSubVal, Except.bind,
    Bind.bind, Pure.pure, Except.pure]
  norm_num [round1, roundHalfEven, Int.fract, min_def, max_def,
    Int.floor_eq_iff, RiskResult.mk.injEq]

/-- C2 (amended): the tier is determined by thresholding the *unrounded*
overall score (of which the returned overall is the one-decimal
rounding): High iff overall ≥ 65, Medium iff 35 ≤ overall < 65, Low iff
overall < 35; and the next action is "Review Immediately" for High,
"Queue for Review" for Medium, "Safe to Proceed" for Low. -/
theorem c2_amended (loaded : Bool) (f a : ℚ) (shap : Option (List ℚ))
    (names : List String) (cd : ClaimRecord) (r : RiskResult)
    (h : analyzeClaim loaded f a shap names cd = .ok r) :
    ∃ ov : ℚ, r.overall_risk = round1 ov ∧
      (r.risk_level = "High" ↔ 65 ≤ ov) ∧
      (r.risk_level = "Medium" ↔ 35 ≤ ov ∧ ov < 65) ∧
      (r.risk_level = "Low" ↔ ov < 35) ∧
      r.next_action = (if r.risk_level = "High" then "Review Immediately"
        else if r.risk_level = "Medium" then "Queue for Review"
        else "Safe to Proceed") := by
  obtain ⟨c, u, p, -, -, -, -, -, -, ho, hl, hn⟩ := analyzeClaim_ok_parts h
  refine ⟨0.45 * c + 0.30 * u + 0.25 * p, ho, ?_, ?_, ?_, hn⟩ <;>
    rw [hl] <;> (split_ifs with h1 h2 <;> simp_all <;> linarith)

/-- C2 (witness): `c2_amended` applied to a concrete degraded scoring
call on the empty claim record (unrounded overall 24.5, tier Low). -/
theorem c2_amended_witness :
    ∃ ov : ℚ, (49/2 : ℚ) = round1 ov ∧
      (("Low" : String) = "High" ↔ 65 ≤ ov) ∧
      (("Low" : String) = "Medium" ↔ 35 ≤ ov ∧ ov < 65) ∧
      (("Low" : String) = "Low" ↔ ov < 35) ∧
      ("Safe to Proceed" : String) =
        (if ("Low" : String) = "High" then "Review Immediately"
         else if ("Low" : String) = "Medium" then "Queue for Review"
         else "Safe to Proceed") :=
  c2_amended false 0 0 none [] []
    ⟨10, 50, 20, 49/2, "Low", "Safe to Proceed",
      ["claim amount", "customer tenure", "damage severity"], 49/200, 0⟩
    (by
      simp [analyzeClaim, mockAnalysis, claimGetD, assocFind, pyStr, strLower,
        strContains, containsL, startsWithL, valDivNum, numSubVal, Except.bind,
        Bind.bind, Pure.pure, Except.pure]
      norm_num [round1, roundHalfEven, Int.fract, min_def, max_def,
        Int.floor_eq_iff, RiskResult.mk.injEq])

/-- C3: on every scoring path (model-based, heuristic-fallback, degraded)
the returned bucket sub-scores and overall score lie in `[0, 100]`, and
the overall score is not independently clamped: the same three raw bucket
scores whose one-decimal roundings are the returned sub-scores also give
the returned overall, exactly as the rounding of their fixed weighted
sum. -/
theorem c3_bounds (loaded : Bool) (f a : ℚ) (shap : Option (List ℚ))
    (names : List String) (cd : ClaimRecord) (r : RiskResult)
    (h : analyzeClaim loaded f a shap names cd = .ok r) :
    (0 ≤ r.claim_risk ∧ r.claim_risk ≤ 100) ∧
    (0 ≤ r.customer_risk ∧ r.customer_risk ≤ 100) ∧
    (0 ≤ r.pattern_risk ∧ r.pattern_risk ≤ 100) ∧
    (0 ≤ r.overall_risk ∧ r.overall_risk ≤ 100) ∧
    ∃ c u p : ℚ, (0 ≤ c ∧ c ≤ 100) ∧ (0 ≤ u ∧ u ≤ 100) ∧
      (0 ≤ p ∧ p ≤ 100) ∧
      r.claim_risk = round1 c ∧ r.customer_risk = round1 u ∧
      r.pattern_risk = round1 p ∧
      r.overall_risk = round1 (0.45 * c + 0.30 * u + 0.25 * p) := by
  obtain ⟨c, u, p, hcb, hub, hpb, hc, hu, hp, ho, -, -⟩ :=
    analyzeClaim_ok_parts h
  have hov0 : (0:ℚ) ≤ 0.45 * c + 0.30 * u + 0.25 * p := by
    nlinarith [hcb.1, hub.1, hpb.1]
  have hov100 : 0.45 * c + 0.30 * u + 0.25 * p ≤ 100 := by
    nlinarith [hcb.2, hub.2, hpb.2]
  refine ⟨?_, ?_, ?_, ?_, c, u, p, hcb, hub, hpb, hc, hu, hp, ho⟩
  · exact hc ▸ ⟨round1_nonneg hcb.1, round1_le_hundred hcb.2⟩
  · exact hu ▸ ⟨round1_nonneg hub.1, round1_le_hundred hub.2⟩
  · exact hp ▸ ⟨round1_nonneg hpb.1, round1_le_hundred hpb.2⟩
  · exact ho ▸ ⟨round1_nonneg hov0, round1_le_hundred hov100⟩

/-- C3 (witness): `c3_bounds` applied to a concrete degraded scoring
call on the empty claim record. -/
theorem c3_bounds_witness :
    ((0:ℚ) ≤ 10 ∧ (10:ℚ) ≤ 100) ∧ ((0:ℚ) ≤ 50 ∧ (50:ℚ) ≤ 100) ∧
    ((0:ℚ) ≤ 20 ∧ (20:ℚ) ≤ 100) ∧ ((0:ℚ) ≤ 49/2 ∧ (49/2:ℚ) ≤ 100) ∧
    ∃ c u p : ℚ, (0 ≤ c ∧ c ≤ 100) ∧ (0 ≤ u ∧ u ≤ 100) ∧
      (0 ≤ p ∧ p ≤ 100) ∧
      (10 : ℚ) = round1 c ∧ (50 : ℚ) = round1 u ∧ (20 : ℚ) = round1 p ∧
      (49/2 : ℚ) = round1 (0.45 * c + 0.30 * u + 0.25 * p) :=
  c3_bounds false 0 0 none [] []
    ⟨10, 50, 20, 49/2, "Low", "Safe to Proceed",
      ["claim amount", "customer tenure", "damage severity"], 49/200, 0⟩
    (by
      simp [analyzeClaim, mockAnalysis, claimGetD, assocFind, pyStr, strLower,
        strContains, containsL, startsWithL, valDivNum, numSubVal, Except.bind,
        Bind.bind, Pure.pure, Except.pure]
      norm_num [round1, roundHalfEven, Int.fract, min_def, max_def,
        Int.floor_eq_iff, RiskResult.mk.injEq])

/-- C10: in the attribution-based bucket scoring, each bucket's positive
mass never exceeds its absolute mass, so the normalized bucket score
equals `100 × positive_mass / max(absolute_mass, 0.01)` exactly — both
the lower clamp at 0 and the upper clamp at 100 are redundant. -/
theorem c10_normalization (shap : List ℚ) (names : List String) :
    (posMassBy isClaimFeature (names.zip shap) ≤
        absMassBy isClaimFeature (names.zip shap) ∧
      posMassBy isCustomerFeature (names.zip shap) ≤
        absMassBy isCustomerFeature (names.zip shap) ∧
      posMassBy isPatternFeature (names.zip shap) ≤
        absMassBy isPatternFeature (names.zip shap)) ∧
    (computeBucketScores shap names).1 =
      100 * posMassBy isClaimFeature (names.zip shap) /
        max (absMassBy isClaimFeature (names.zip shap)) 0.01 ∧
    (computeBucketScores shap names).2.1 =
      100 * posMassBy isCustomerFeature (names.zip shap) /
        max (absMassBy isCustomerFeature (names.zip shap)) 0.01 ∧
    (computeBucketScores shap names).2.2.1 =
      100 * posMassBy isPatternFeature (names.zip shap) /
        max (absMassBy isPatternFeature (names.zip shap)) 0.01 := by
  refine ⟨⟨posMassBy_le_absMassBy _ _, posMassBy_le_absMassBy _ _,
    posMassBy_le_absMassBy _ _⟩, ?_, ?_, ?_⟩ <;>
  · simp only [computeBucketScores]
    exact norm_clamp_redundant (posMassBy_nonneg _ _)
      (posMassBy_le_absMassBy _ _)

/-- Python renders the integer default `0` as the string `"0"`. -/
theorem pyStr_num_zero : pyStr (Value.num 0) = "0" := rfl

/-- The rational zero renders as the string `"0"`. -/
theorem toString_rat_zero : toString (0 : ℚ) = "0" := rfl

/-- C4 (code evaluation at the failing input): for the structurally valid
claim record `{"total_claim_amount": "abc"}` (and likewise a null
amount), both degraded scoring paths raise `TypeError` instead of
returning a RiskResult — `_mock_analysis` divides the raw value by 1000
and the heuristic fallback compares it with 50000. -/
theorem c4_exception_escapes :
    analyzeClaim false 0 0 none []
      [("total_claim_amount", Value.str "abc")] = .error .typeError ∧
    analyzeClaim true (1/2) 0 none []
      [("total_claim_amount", Value.str "abc")] = .error .typeError ∧
    analyzeClaim false 0 0 none []
      [("total_claim_amount", Value.null)] = .error .typeError := by
  refine ⟨?_, ?_, ?_⟩ <;>
    simp [analyzeClaim, mockAnalysis, analyzeWithModels, fallbackScores,
      claimGetD, assocFind, valDivNum, valGtNum, Except.bind, Bind.bind]

/-- C5 (counterexample): for a trained categorical feature `"f"` with
trained classes `["A", "MISSING"]`, an *absent* field encodes to 0 (the
raw default `0` is stringified to `"0"`, which is unknown), while the
claim's stated rule — absent defaults to `"MISSING"`, and a string seen
during training maps to its trained code — would give code 1. -/
theorem c5_counterexample :
    encodeRaw ["f"] [("f", ["A", "MISSING"])] "f" none = 0 ∧
    encodeSpecClaimed ["f"] [("f", ["A", "MISSING"])] "f" none = 1 ∧
    ((0 : ℚ) ≠ 1) := by
  refine ⟨?_, ?_, by norm_num⟩ <;>
    simp [encodeRaw, encodeSpecClaimed, memStr, assocFind, idxOfStr,
      toString_rat_zero, pyStr, pyFloatCoerce]

/-- C5 (amended): the per-feature encoding of `_preprocess` coerces the
value to a string defaulting to `"MISSING"` only for *null* values — an
absent field defaults to the number 0, hence the string `"0"` — then maps
trained categories to their trained integer code and any other string to
code 0; numeric features yield the value itself, with null, absence or
coercion failure giving 0; no case raises. -/
theorem c5_encode_amended (catCols : List String)
    (encoders : List (String × List String)) (fname : String)
    (v : Option Value) :
    encodeRaw catCols encoders fname v =
      encodeSpecAmended catCols encoders fname v := by
  cases v with
  | none => rfl
  | some w => cases w <;> rfl

/-- C6 (counterexample): a failed artifact-load attempt is *not* cached:
after one failed load the state is still "unloaded", and the next scoring
call performs another load attempt (third component `true`), whatever the
environment — contradicting "no subsequent scoring call attempts to load
the artifacts again". -/
theorem c6_counterexample :
    stateAfterFailures 1 = false ∧
    (loadModels (stateAfterFailures 1) false).2.2 = true ∧
    (loadModels (stateAfterFailures 1) true).2.2 = true := by
  refine ⟨rfl, ?_, ?_⟩ <;> simp [stateAfterFailures, loadModels]

/-- C6 (amended): artifact loading is lazy and only *success* is a
terminal cached state (`_loaded`); a failed load is not recorded, so from
the unloaded state every scoring call re-attempts the load no matter how
many attempts already failed. -/
theorem c6_load_state :
    (∀ avail, loadModels true avail = (true, true, false)) ∧
    (∀ n avail, stateAfterFailures n = false ∧
      loadModels (stateAfterFailures n) avail = (avail, avail, true)) := by
  constructor
  · intro avail; rfl
  · intro n avail
    have hs : stateAfterFailures n = false := by
      induction n with
      | zero => rfl
      | succ m ih => simp [stateAfterFailures, ih, loadModels]
    exact ⟨hs, by rw [hs]; rfl⟩

set_option maxHeartbeats 1600000 in
/-- C7 (counterexample): the degraded result carries no capability flag:
for the empty claim record there are model outputs (fraud probability
0.245, anomaly 0, a SHAP vector over six features) for which the
full production scoring call returns *exactly* the same RiskResult as the
degraded call — the two are indistinguishable to the caller. -/
theorem c7_counterexample :
    analyzeClaim true 0.245 0 (some [0.6, 0.5, 0.1, -0.9, -0.5, -2.4])
      ["claim_amount", "months_as_customer", "incident_severity",
       "witnesses", "age", "policy_state"] [] =
    analyzeClaim false 0.245 0 (some [0.6, 0.5, 0.1, -0.9, -0.5, -2.4])
      ["claim_amount", "months_as_customer", "incident_severity",
       "witnesses", "age", "policy_state"] [] := by
  have hbs : computeBucketScores [0.6, 0.5, 0.1, -0.9, -0.5, -2.4]
      ["claim_amount", "months_as_customer", "incident_severity",
       "witnesses", "age", "policy_state"] =
      (10, 50, 20, ["claim amount", "customer tenure", "damage severity"]) := by
    simp only [computeBucketScores, contribsOf, List.zip, List.zipWith,
      List.filter, posMassBy, absMassBy, isClaimFeature, isCustomerFeature,
      isPatternFeature, memStr, claimFeatures, customerFeatures]
    norm_num
    simp [translate, assocFind, List.insertionSort, List.orderedInsert,
      Prod.ext_iff]
    norm_num [abs, min_def, max_def]
  have hmock : mockAnalysis [] =
      .ok ⟨10, 50, 20, 49/2, "Low", "Safe to Proceed",
        ["claim amount", "customer tenure", "damage severity"],
        49/200, 0⟩ := by
    simp [mockAnalysis, claimGetD, assocFind, pyStr, strLower, strContains,
      containsL, startsWithL, valDivNum, numSubVal, Except.bind, Bind.bind,
      Pure.pure, Except.pure]
    norm_num [round1, roundHalfEven, Int.fract, min_def, max_def,
      Int.floor_eq_iff, RiskResult.mk.injEq]
  simp only [analyzeClaim, analyzeWithModels, hbs, if_true,
    Bool.false_eq_true, if_false, hmock]
  norm_num [finishResult, round1, round4, roundHalfEven, Int.fract,
    Int.floor_eq_iff, RiskResult.mk.injEq]
  simp

/-- C7 (amended): when artifacts cannot be loaded the scoring entry point
fails closed with a deterministic heuristic result computed from the
claim fields alone (the model outputs are never consulted), e.g. amount
80000 and tenure 50 give bucket scores 80/50/20 and overall 56.0
(Medium); but no capability flag marks the result — degraded output has
exactly the production shape (see the counterexample), and availability
is surfaced only by the loader's internal boolean. -/
theorem c7_degraded :
    (∀ (f a : ℚ) (shap : Option (List ℚ)) (names : List String)
      (cd : ClaimRecord),
      analyzeClaim false f a shap names cd = mockAnalysis cd) ∧
    mockAnalysis [("total_claim_amount", Value.num 80000),
      ("months_as_customer", Value.num 50)] =
      .ok ⟨80, 50, 20, 56, "Medium", "Queue for Review",
        ["claim amount", "customer tenure", "damage severity"],
        14/25, 0⟩ := by
  constructor
  · intro f a shap names cd; rfl
  · simp [mockAnalysis, claimGetD, assocFind, pyStr, strLower, strContains,
      containsL, startsWithL, valDivNum, numSubVal, Except.bind, Bind.bind,
      Pure.pure, Except.pure]
    norm_num [round1, roundHalfEven, Int.fract, min_def, max_def,
      Int.floor_eq_iff, RiskResult.mk.injEq]

instance descRelTotal :
    IsTotal (String × ℚ) (fun a b => b.2 ≤ a.2) :=
  ⟨fun a b => le_total b.2 a.2⟩

instance descRelTrans :
    IsTrans (String × ℚ) (fun a b => b.2 ≤ a.2) :=
  ⟨fun _ _ _ h1 h2 => le_trans h2 h1⟩

/-- The `[0, 100]` clamp commutes with the inner `min 100`. -/
theorem clamp_swap (x : ℚ) : (0:ℚ) ⊔ (100 ⊓ x) = 100 ⊓ ((0:ℚ) ⊔ x) := by
  rw [max_min_distrib_left]
  norm_num

/-- Special case of `clamp_add` for the +15 severity/police bumps. -/
theorem clamp_add15 (x : ℚ) :
    min 100 (max 0 (min 100 x + 15)) = min 100 (max 0 (x + 15)) :=
  clamp_add (by norm_num)

set_option maxHeartbeats 2000000 in
/-- C8: the heuristic fallback computes each bucket as the clamp to
`[0, 100]` of: base `P(fraud)·100` times 0.8/0.5/0.4 (claim, customer,
pattern), plus 20 when the claim amount exceeds 50,000, plus 15 when the
lowered severity contains "total", plus 25 when tenure is below 12,
plus 15 when no police report is available (`"no"`, `"?"` or empty),
minus 30 times the anomaly score on the pattern bucket; and on the
scenario claim (amount 60000, severity "Total Loss", tenure 3, police
"NO") with fraud probability 0.7 and anomaly −0.1 the buckets are
91/60/46, the overall score 70.4 ≥ 65, the tier High and the next action
"Review Immediately". -/
theorem c8_fallback_formula :
    (∀ (fraud anomaly amount tenure : ℚ) (severity police : String),
      fallbackScores fraud anomaly
        [("total_claim_amount", Value.num amount),
         ("incident_severity", Value.str severity),
         ("months_as_customer", Value.num tenure),
         ("police_report_available", Value.str police)] =
      .ok (min 100 (max 0 (fraud * 100 * 0.8 +
              (if 50000 < amount then (20:ℚ) else 0) +
              (if strContains (strLower severity) "total" = true then (15:ℚ)
               else 0))),
           min 100 (max 0 (fraud * 100 * 0.5 +
              (if tenure < 12 then (25:ℚ) else 0))),
           min 100 (max 0 (fraud * 100 * 0.4 - 30 * anomaly +
              (if (strLower police = "no" ∨ strLower police = "?" ∨
                   strLower police = "") then (15:ℚ) else 0))),
           (if 50000 < amount then ["total claim amount"] else []) ++
           (if strContains (strLower severity) "total" = true
            then ["damage severity"] else []) ++
           (if tenure < 12 then ["customer tenure"] else []) ++
           (if (strLower police = "no" ∨ strLower police = "?" ∨
                strLower police = "") then ["police report availability"]
            else []))) ∧
    (analyzeClaim true 0.7 (-0.1) none []
        [("total_claim_amount", Value.num 60000),
         ("incident_severity", Value.str "Total Loss"),
         ("months_as_customer", Value.num 3),
         ("police_report_available", Value.str "NO")] =
      .ok ⟨91, 60, 46, 352/5, "High", "Review Immediately",
        ["total claim amount", "damage severity", "customer tenure",
         "police report availability"], 7/10, -1/10⟩ ∧
      (65:ℚ) ≤ 352/5) := by
  constructor
  · intro fraud anomaly amount tenure severity police
    simp only [fallbackScores, claimGetD, assocFind, pyStr, valGtNum,
      valLtNum, Except.bind, Bind.bind, Pure.pure, Except.pure]
    simp only [String.reduceEq, if_true, if_false, ite_true, ite_false,
      Option.getD_some, decide_eq_true_eq]
    by_cases h1 : (50000:ℚ) < amount <;>
      by_cases h2 : strContains (strLower severity) "total" = true <;>
      by_cases h3 : tenure < (12:ℚ) <;>
      by_cases h4 : (strLower police = "no" ∨ strLower police = "?" ∨
        strLower police = "") <;>
      simp only [h1, h2, h3, h4, if_true, if_false, ite_true, ite_false,
        eq_self_iff_true, not_true, not_false_iff, Except.ok.injEq,
        Prod.mk.injEq, List.take, List.append_nil, List.nil_append,
        List.cons_append, clamp_min100, clamp_add15] <;>
      norm_num [clamp_min100, clamp_add15] <;>
      (try simp [or_assoc, h4, List.take]) <;>
      (try simp [clamp_swap]) <;>
      (try ring_nf)
  · refine ⟨?_, by norm_num⟩
    have hfb : fallbackScores 0.7 (-0.1)
        [("total_claim_amount", Value.num 60000),
         ("incident_severity", Value.str "Total Loss"),
         ("months_as_customer", Value.num 3),
         ("police_report_available", Value.str "NO")] =
        .ok (91, 60, 46, ["total claim amount", "damage severity",
          "customer tenure", "police report availability"]) := by
      simp [fallbackScores, claimGetD, assocFind, pyStr, strLower,
        strContains, containsL, startsWithL, valGtNum, valLtNum,
        Except.bind, Bind.bind, Pure.pure, Except.pure]
      norm_num [min_def, max_def]
    simp only [analyzeClaim, analyzeWithModels, hfb, if_true, Except.bind,
      Bind.bind, Pure.pure, Except.pure]
    norm_num [finishResult, round1, round4, roundHalfEven, Int.fract,
      Int.floor_eq_iff, RiskResult.mk.injEq]

/-- C9 (counterexample): with seven features all of whose contributions
exceed 0.02, the top-features list keeps only the top six labels — the
seventh qualifying feature's label ("g h", contribution 0.3 > 0.02) is
missing, so the list does not contain *exactly* the labels of all
features above the threshold. -/
theorem c9_counterexample :
    (computeBucketScores [0.9, 0.8, 0.7, 0.6, 0.5, 0.4, 0.3]
      ["a_b", "b_c", "c_d", "d_e", "e_f", "f_g", "g_h"]).2.2.2 =
      ["a b", "b c", "c d", "d e", "e f", "f g"] ∧
    "g h" ∉ (computeBucketScores [0.9, 0.8, 0.7, 0.6, 0.5, 0.4, 0.3]
      ["a_b", "b_c", "c_d", "d_e", "e_f", "f_g", "g_h"]).2.2.2 ∧
    ((0.02:ℚ) < 0.3) ∧ translate "g_h" = "g h" := by
  have h : (computeBucketScores [0.9, 0.8, 0.7, 0.6, 0.5, 0.4, 0.3]
      ["a_b", "b_c", "c_d", "d_e", "e_f", "f_g", "g_h"]).2.2.2 =
      ["a b", "b c", "c d", "d e", "e f", "f g"] := by
    simp only [computeBucketScores, contribsOf, List.zip, List.zipWith,
      List.filter]
    norm_num
    simp [translate, assocFind, List.insertionSort, List.orderedInsert]
  refine ⟨h, by rw [h]; simp, by norm_num, by simp [translate, assocFind]⟩

/-- C9 (amended): the top-features list has length at most 6; it consists
of the labels (dictionary translation, or underscores replaced by spaces)
of features whose contribution strictly exceeds 0.02, listed in
descending order of contribution; the qualifying labelled contributions
split into the kept part `cs` and the dropped part `ds` with every kept
contribution at least every dropped one and `|cs| = min 6 |qualifying|`
— so exactly the top 6 survive when more than 6 qualify — and when at
most 6 features qualify the list contains exactly all of their labels. -/
theorem c9_top_features (shap : List ℚ) (names : List String) :
    ((computeBucketScores shap names).2.2.2).length ≤ 6 ∧
    ∃ cs ds : List (String × ℚ),
      (computeBucketScores shap names).2.2.2 = cs.map Prod.fst ∧
      List.Pairwise (fun x y : String × ℚ => y.2 ≤ x.2) cs ∧
      (∀ x ∈ cs, (0.02:ℚ) < x.2 ∧
        ∃ p ∈ names.zip shap, x = (translate p.1, p.2)) ∧
      (cs ++ ds).Perm
        (((names.zip shap).filter
          (fun p => decide ((0.02:ℚ) < p.2))).map
            (fun p => (translate p.1, p.2))) ∧
      (∀ x ∈ cs, ∀ y ∈ ds, y.2 ≤ x.2) ∧
      cs.length = min 6 (((names.zip shap).filter
        (fun p => decide ((0.02:ℚ) < p.2))).length) ∧
      (((names.zip shap).filter
          (fun p => decide ((0.02:ℚ) < p.2))).length ≤ 6 →
        ((computeBucketScores shap names).2.2.2).Perm
          (((names.zip shap).filter
            (fun p => decide ((0.02:ℚ) < p.2))).map
              (fun p => translate p.1))) := by
  have htf : (computeBucketScores shap names).2.2.2 =
      (((contribsOf (names.zip shap)).insertionSort
        (fun a b => b.2 ≤ a.2)).take 6).map Prod.fst := rfl
  constructor
  · rw [htf, List.length_map]
    exact le_trans (List.length_take .. ▸ min_le_left _ _) (le_refl 6)
  · refine ⟨((contribsOf (names.zip shap)).insertionSort
        (fun a b => b.2 ≤ a.2)).take 6,
      ((contribsOf (names.zip shap)).insertionSort
        (fun a b => b.2 ≤ a.2)).drop 6, htf, ?_, ?_, ?_, ?_, ?_, ?_⟩
    · exact (List.sorted_insertionSort _ _).sublist
        (List.take_sublist _ _)
    · intro x hx
      have hx' : x ∈ (contribsOf (names.zip shap)).insertionSort
          (fun a b => b.2 ≤ a.2) := List.mem_of_mem_take hx
      rw [List.mem_insertionSort] at hx'
      simp only [contribsOf, List.mem_map, List.mem_filter,
        decide_eq_true_eq] at hx'
      obtain ⟨p, ⟨hp, hq⟩, hx⟩ := hx'
      subst hx
      exact ⟨hq, p, hp, rfl⟩
    · rw [List.take_append_drop]
      exact List.perm_insertionSort _ _
    · have hs := List.sorted_insertionSort
        (fun a b : String × ℚ => b.2 ≤ a.2) (contribsOf (names.zip shap))
      rw [← List.take_append_drop 6 ((contribsOf (names.zip shap)).insertionSort
        (fun a b => b.2 ≤ a.2))] at hs
      obtain ⟨-, -, hmax⟩ := List.pairwise_append.mp hs
      exact fun x hx y hy => hmax x hx y hy
    · rw [List.length_take, (List.perm_insertionSort _ _).length_eq]
      simp [contribsOf]
    · intro hlen
      have hlen' : ((contribsOf (names.zip shap)).insertionSort
          (fun a b => b.2 ≤ a.2)).length ≤ 6 := by
        rw [(List.perm_insertionSort _ _).length_eq]
        simpa [contribsOf] using hlen
      rw [htf, List.take_of_length_le hlen']
      have hperm := (List.perm_insertionSort
        (fun a b : String × ℚ => b.2 ≤ a.2) (contribsOf (names.zip shap))).map
        Prod.fst
      refine hperm.trans ?_
      simp only [contribsOf, List.map_map]
      exact List.Perm.refl _

/-- C9 (witness): `c9_top_features` applied to the concrete one-feature
attribution input. -/
theorem c9_top_features_witness :
    ((computeBucketScores [(0.9:ℚ)] ["a_b"]).2.2.2).length ≤ 6 ∧
    ∃ cs ds : List (String × ℚ),
      (computeBucketScores [(0.9:ℚ)] ["a_b"]).2.2.2 = cs.map Prod.fst ∧
      List.Pairwise (fun x y : String × ℚ => y.2 ≤ x.2) cs ∧
      (∀ x ∈ cs, (0.02:ℚ) < x.2 ∧
        ∃ p ∈ (["a_b"] : List String).zip [(0.9:ℚ)],
          x = (translate p.1, p.2)) ∧
      (cs ++ ds).Perm
        (((((["a_b"] : List String).zip [(0.9:ℚ)])).filter
          (fun p => decide ((0.02:ℚ) < p.2))).map
            (fun p => (translate p.1, p.2))) ∧
      (∀ x ∈ cs, ∀ y ∈ ds, y.2 ≤ x.2) ∧
      cs.length = min 6 (((((["a_b"] : List String).zip [(0.9:ℚ)])).filter
        (fun p => decide ((0.02:ℚ) < p.2))).length) ∧
      ((((["a_b"] : List String).zip [(0.9:ℚ)]).filter
          (fun p => decide ((0.02:ℚ) < p.2))).length ≤ 6 →
        ((computeBucketScores [(0.9:ℚ)] ["a_b"]).2.2.2).Perm
          ((((["a_b"] : List String).zip [(0.9:ℚ)]).filter
            (fun p => decide ((0.02:ℚ) < p.2))).map
              (fun p => translate p.1))) :=
  c9_top_features [(0.9:ℚ)] ["a_b"]

end Avia
